import Mathlib

/-!
Verification of the configuration loader in `pkg/config/config.go` of the
clair repository (package `config`).

The Go source is shallowly embedded: pure data becomes Lean structures,
`LoadConfig`'s interactions with the operating system (environment-variable
expansion, file open/read, random key generation) are represented by an
explicit environment record, and the external libraries the loader calls
(`gopkg.in/yaml.v2`, `github.com/fernet/fernet-go`) are modelled from the
specification's description of their behaviour, since their code is not part
of this repository.
-/

namespace ClairConfig

/-! ### URL-safe base64 (models Go `encoding/base64` URLEncoding with padding)

`fernet-go` encodes keys with `base64.URLEncoding.EncodeToString` and the
spec describes pagination keys as "URL-safe base64" of 32 bytes.  Bytes are
`Nat`s below 256. -/

/-- The URL-safe base64 alphabet, in sextet order. -/
def b64chars : List Char :=
  "ABCDEFGHIJKLMNOPQRSTUVWXYZabcdefghijklmnopqrstuvwxyz0123456789-_".toList

/-- Character for a sextet (a value below 64). -/
def sextetToChar (n : Nat) : Char := b64chars.getD n 'A'

/-- Sextet for a character, `none` when the character is not in the alphabet. -/
def charToSextet (c : Char) : Option Nat := b64chars.indexOf? c

/-- Encode a byte list, three bytes to four characters, padding with `=`. -/
def encodeChunks : List Nat → List Char
  | [] => []
  | [b1] =>
      [sextetToChar (b1 / 4), sextetToChar (b1 % 4 * 16), '=', '=']
  | [b1, b2] =>
      [sextetToChar (b1 / 4), sextetToChar (b1 % 4 * 16 + b2 / 16),
       sextetToChar (b2 % 16 * 4), '=']
  | b1 :: b2 :: b3 :: rest =>
      sextetToChar (b1 / 4) :: sextetToChar (b1 % 4 * 16 + b2 / 16) ::
      sextetToChar (b2 % 16 * 4 + b3 / 64) :: sextetToChar (b3 % 64) ::
      encodeChunks rest

/-- Decode a character list, four characters to three bytes; `=` padding is
accepted only at the very end, as Go's (non-strict) padded decoder does. -/
def decodeChunks : List Char → Option (List Nat)
  | [] => some []
  | c1 :: c2 :: c3 :: c4 :: rest =>
      match charToSextet c1, charToSextet c2 with
      | some s1, some s2 =>
          if c3 = '=' then
            if c4 = '=' ∧ rest = [] then some [s1 * 4 + s2 / 16] else none
          else
            match charToSextet c3 with
            | some s3 =>
                if c4 = '=' then
                  if rest = [] then
                    some [s1 * 4 + s2 / 16, s2 % 16 * 16 + s3 / 4]
                  else none
                else
                  match charToSextet c4 with
                  | some s4 =>
                      (decodeChunks rest).map
                        (fun bs => (s1 * 4 + s2 / 16) :: (s2 % 16 * 16 + s3 / 4) ::
                                   (s3 % 4 * 64 + s4) :: bs)
                  | none => none
            | none => none
      | _, _ => none
  | _ => none

/-- Encoding a byte string to a URL-safe base64 string. -/
def base64UrlEncode (bs : List Nat) : String := String.mk (encodeChunks bs)

/-- Decoding a URL-safe base64 string to a byte string. -/
def base64UrlDecode (s : String) : Option (List Nat) := decodeChunks s.toList

theorem charToSextet_sextetToChar : ∀ s < 64, charToSextet (sextetToChar s) = some s := by
  decide

theorem sextetToChar_ne_pad : ∀ s < 64, sextetToChar s ≠ '=' := by
  decide

/-- Round trip: decoding an encoded byte string (all bytes below 256)
recovers it. -/
theorem decodeChunks_encodeChunks :
    ∀ bs : List Nat, (∀ b ∈ bs, b < 256) → decodeChunks (encodeChunks bs) = some bs
  | [], _ => by simp [encodeChunks, decodeChunks]
  | [b1], h => by
      have hb1 : b1 < 256 := h b1 (by simp)
      have h1 : b1 / 4 < 64 := by omega
      have h2 : b1 % 4 * 16 < 64 := by omega
      simp only [encodeChunks, decodeChunks,
        charToSextet_sextetToChar _ h1, charToSextet_sextetToChar _ h2]
      simp only [reduceIte, and_self, Option.some.injEq, List.cons.injEq, and_true]
      omega
  | [b1, b2], h => by
      have hb1 : b1 < 256 := h b1 (by simp)
      have hb2 : b2 < 256 := h b2 (by simp)
      have h1 : b1 / 4 < 64 := by omega
      have h2 : b1 % 4 * 16 + b2 / 16 < 64 := by omega
      have h3 : b2 % 16 * 4 < 64 := by omega
      simp only [encodeChunks, decodeChunks,
        charToSextet_sextetToChar _ h1, charToSextet_sextetToChar _ h2,
        charToSextet_sextetToChar _ h3]
      rw [if_neg (sextetToChar_ne_pad _ h3)]
      simp only [reduceIte, Option.some.injEq, List.cons.injEq, and_true]
      omega
  | b1 :: b2 :: b3 :: rest, h => by
      have hb1 : b1 < 256 := h b1 (by simp)
      have hb2 : b2 < 256 := h b2 (by simp)
      have hb3 : b3 < 256 := h b3 (by simp)
      have hrest : ∀ b ∈ rest, b < 256 := fun b hb => h b (by simp [hb])
      have ih := decodeChunks_encodeChunks rest hrest
      have h1 : b1 / 4 < 64 := by omega
      have h2 : b1 % 4 * 16 + b2 / 16 < 64 := by omega
      have h3 : b2 % 16 * 4 + b3 / 64 < 64 := by omega
      have h4 : b3 % 64 < 64 := by omega
      show decodeChunks (sextetToChar (b1 / 4) :: sextetToChar (b1 % 4 * 16 + b2 / 16) ::
        sextetToChar (b2 % 16 * 4 + b3 / 64) :: sextetToChar (b3 % 64) ::
        encodeChunks rest) = some (b1 :: b2 :: b3 :: rest)
      simp only [decodeChunks,
        charToSextet_sextetToChar _ h1, charToSextet_sextetToChar _ h2,
        charToSextet_sextetToChar _ h3, charToSextet_sextetToChar _ h4]
      rw [if_neg (sextetToChar_ne_pad _ h3), if_neg (sextetToChar_ne_pad _ h4)]
      rw [ih]
      simp only [Option.map_some', Option.some.injEq, List.cons.injEq, and_true]
      omega

theorem base64UrlDecode_base64UrlEncode (bs : List Nat) (h : ∀ b ∈ bs, b < 256) :
    base64UrlDecode (base64UrlEncode bs) = some bs :=
  decodeChunks_encodeChunks bs h

/-! ### Durations

Go `time.Duration` is a count of nanoseconds (an `int64`); embedded as `Int`. -/

/-- One second in nanoseconds, Go `time.Second`. -/
def timeSecond : Int := 1000000000

/-- One hour in nanoseconds, Go `time.Hour`. -/
def timeHour : Int := 3600000000000

/-- Nanoseconds per duration unit, Go `time.ParseDuration` unit table
(ASCII units). -/
def unitNanos : String → Option Int
  | "ns" => some 1
  | "us" => some 1000
  | "ms" => some 1000000
  | "s" => some 1000000000
  | "m" => some 60000000000
  | "h" => some 3600000000000
  | _ => none

/-- Numeric value of a digit list. -/
def digitsVal (ds : List Char) : Int :=
  ds.foldl (fun a c => a * 10 + (Int.ofNat c.toNat - 48)) 0

/-- Modelled from the spec: the spec's file format gives `timeout` and
`renotifyinterval` as duration-strings, resolved by the YAML layer through Go
`time.ParseDuration` (that code is outside this repository).  This models the
non-negative, integral fragment of that parser: a non-empty sequence of
`<digits><unit>` segments whose values are summed.  The `fuel` argument only
bounds recursion depth; it is always called with the list length. -/
def parseDurAux : Nat → List Char → Option Int
  | _, [] => some 0
  | 0, _ :: _ => none
  | fuel + 1, c :: cs =>
      let (ds, rest) := (c :: cs).span Char.isDigit
      if ds.isEmpty then none
      else
        let (us, rest2) := rest.span (fun x => ¬ x.isDigit)
        match unitNanos (String.mk us) with
        | none => none
        | some u => (parseDurAux fuel rest2).map (fun r => digitsVal ds * u + r)

/-- Modelled from the spec: Go `time.ParseDuration` on the fragment described
at `parseDurAux` (plus the special case `"0"`); empty strings are rejected. -/
def parseGoDuration (s : String) : Option Int :=
  if s = "0" then some 0
  else if s.toList.isEmpty then none
  else parseDurAux s.toList.length s.toList

/-! ### Data model (from `pkg/config/config.go`)

Pointer-typed Go fields become `Option`; a `none` is a nil pointer. -/

/-- Modelled from the spec: `database.RegistrableComponentConfig` lives outside
the provided source; the spec describes it as backend-specific connection
fields plus a store-type discriminator. -/
structure RegistrableComponentConfig where
  «Type» : String
  Options : List (String × String)
deriving DecidableEq

/-- Modelled from the spec: `notification.Config` lives outside the provided
source; the spec gives a retry-attempt count and a re-notify interval. -/
structure NotificationConfig where
  Attempts : Int
  RenotifyInterval : Int
deriving DecidableEq

/-- UpdaterConfig configures the regular updater by cron. -/
structure UpdaterConfig where
  Cron : String
  Disabled : Bool
deriving DecidableEq

/-- APIConfig is the configuration for the API service. -/
structure APIConfig where
  Port : Int
  HealthPort : Int
  Timeout : Int
  PaginationKey : String
  CertFile : String
  KeyFile : String
  CAFile : String
deriving DecidableEq

/-- Config is the global configuration for an instance of Clair. -/
structure Config where
  Database : RegistrableComponentConfig
  Updater : Option UpdaterConfig
  Notifier : Option NotificationConfig
  API : Option APIConfig
deriving DecidableEq

/-- File represents a YAML configuration file that namespaces all Clair
configuration under the top-level clair key. -/
structure File where
  Clair : Config
deriving DecidableEq

/-- Go zero value of `RegistrableComponentConfig`. -/
def zeroDatabase : RegistrableComponentConfig := { «Type» := "", Options := [] }

/-- Go zero value of `UpdaterConfig`. -/
def zeroUpdater : UpdaterConfig := { Cron := "", Disabled := false }

/-- Go zero value of `notification.Config`. -/
def zeroNotifier : NotificationConfig := { Attempts := 0, RenotifyInterval := 0 }

/-- Go zero value of `APIConfig`. -/
def zeroAPI : APIConfig :=
  { Port := 0, HealthPort := 0, Timeout := 0, PaginationKey := "",
    CertFile := "", KeyFile := "", CAFile := "" }

/-- Go zero value of `Config` (all pointers nil). -/
def zeroConfig : Config :=
  { Database := zeroDatabase, Updater := none, Notifier := none, API := none }

/-- DefaultConfig is a configuration that can be used as a fallback value. -/
def DefaultConfig : Config :=
  { Database := { «Type» := "pgsql", Options := [] },
    Updater := some { Cron := "@midnight", Disabled := false },
    API := some { Port := 6060, HealthPort := 6061, Timeout := 900 * timeSecond,
                  PaginationKey := "", CertFile := "", KeyFile := "", CAFile := "" },
    Notifier := some { Attempts := 5, RenotifyInterval := 2 * timeHour } }

/-! ### YAML documents and merge semantics

Modelled from the spec: `yaml.Unmarshal` (library `gopkg.in/yaml.v2`, outside
this repository) deserialises onto a pre-populated value.  A field absent from
the document keeps the current value; an explicit YAML null sets the field to
its Go zero value (a nil pointer for pointer fields); a present value replaces
the field, recursing into nested mappings (a mapping decoded into a non-nil
pointer updates the pointed-to value field by field, into a nil pointer a
fresh zero value).  A parsed document is represented by its field skeleton;
raw text that fails YAML parsing is represented by the `malformed`
constructor of `FileContent` below. -/

/-- State of one field of a YAML mapping: absent, explicit null, or present. -/
inductive YField (α : Type) where
  | absent
  | null
  | val (a : α)
deriving DecidableEq

/-- Document fragment for the `updater` block. -/
structure UpdaterDoc where
  Cron : YField String
  Disabled : YField Bool
deriving DecidableEq

/-- Document fragment for the `notifier` block; `renotifyinterval` is a
duration-string. -/
structure NotifierDoc where
  Attempts : YField Int
  RenotifyInterval : YField String
deriving DecidableEq

/-- Document fragment for the `api` block; `timeout` is a duration-string. -/
structure APIDoc where
  Port : YField Int
  HealthPort : YField Int
  Timeout : YField String
  PaginationKey : YField String
  CertFile : YField String
  KeyFile : YField String
  CAFile : YField String
deriving DecidableEq

/-- Document fragment for the `database` block. -/
structure DatabaseDoc where
  «Type» : YField String
  Options : YField (List (String × String))
deriving DecidableEq

/-- Document fragment for the `clair` mapping. -/
structure ConfigDoc where
  Database : YField DatabaseDoc
  Updater : YField UpdaterDoc
  Notifier : YField NotifierDoc
  API : YField APIDoc
deriving DecidableEq

/-- A whole parsed document (the envelope with its single `clair` key). -/
structure FileDoc where
  Clair : YField ConfigDoc
deriving DecidableEq

/-- Merge of a scalar field onto the current value (`zero` is the Go zero
value the field takes on explicit null). -/
def mergeScalar {α : Type} (f : YField α) (zero cur : α) : α :=
  match f with
  | .absent => cur
  | .null => zero
  | .val a => a

/-- Merge of a duration-string field; an unparsable string is a YAML decode
error. -/
def mergeDuration (f : YField String) (cur : Int) : Except String Int :=
  match f with
  | .absent => .ok cur
  | .null => .ok 0
  | .val s =>
      match parseGoDuration s with
      | some d => .ok d
      | none => .error ("cannot unmarshal " ++ s ++ " into time.Duration")

/-- Merge of a mapping onto a pointer field when the block merge cannot
fail. -/
def mergePtrP {δ α : Type} (merge : δ → α → α) (zero : α)
    (f : YField δ) (cur : Option α) : Option α :=
  match f with
  | .absent => cur
  | .null => none
  | .val d => some (merge d (cur.getD zero))

/-- Merge of a mapping onto a pointer field when the block merge can fail. -/
def mergePtrE {δ α : Type} (merge : δ → α → Except String α) (zero : α)
    (f : YField δ) (cur : Option α) : Except String (Option α) :=
  match f with
  | .absent => .ok cur
  | .null => .ok none
  | .val d =>
      match merge d (cur.getD zero) with
      | .ok a => .ok (some a)
      | .error e => .error e

/-- Merge of an `updater` block. -/
def mergeUpdater (d : UpdaterDoc) (cur : UpdaterConfig) : UpdaterConfig :=
  { Cron := mergeScalar d.Cron "" cur.Cron,
    Disabled := mergeScalar d.Disabled false cur.Disabled }

/-- Merge of a `database` block. -/
def mergeDatabase (d : DatabaseDoc) (cur : RegistrableComponentConfig) :
    RegistrableComponentConfig :=
  { «Type» := mergeScalar d.«Type» "" cur.«Type»,
    Options := mergeScalar d.Options [] cur.Options }

/-- Merge of a `notifier` block. -/
def mergeNotifier (d : NotifierDoc) (cur : NotificationConfig) :
    Except String NotificationConfig :=
  match mergeDuration d.RenotifyInterval cur.RenotifyInterval with
  | .error e => .error e
  | .ok ri => .ok { Attempts := mergeScalar d.Attempts 0 cur.Attempts,
                    RenotifyInterval := ri }

/-- Merge of an `api` block. -/
def mergeAPI (d : APIDoc) (cur : APIConfig) : Except String APIConfig :=
  match mergeDuration d.Timeout cur.Timeout with
  | .error e => .error e
  | .ok t =>
      .ok { Port := mergeScalar d.Port 0 cur.Port,
            HealthPort := mergeScalar d.HealthPort 0 cur.HealthPort,
            Timeout := t,
            PaginationKey := mergeScalar d.PaginationKey "" cur.PaginationKey,
            CertFile := mergeScalar d.CertFile "" cur.CertFile,
            KeyFile := mergeScalar d.KeyFile "" cur.KeyFile,
            CAFile := mergeScalar d.CAFile "" cur.CAFile }

/-- Merge of the `database` block onto the (non-pointer) `Database` field. -/
def mergeDatabaseField (f : YField DatabaseDoc) (cur : RegistrableComponentConfig) :
    RegistrableComponentConfig :=
  match f with
  | .absent => cur
  | .null => zeroDatabase
  | .val db => mergeDatabase db cur

/-- Merge of the `clair` mapping onto a `Config`. -/
def mergeConfig (d : ConfigDoc) (cur : Config) : Except String Config :=
  match mergePtrE mergeNotifier zeroNotifier d.Notifier cur.Notifier with
  | .error e => .error e
  | .ok nt =>
      match mergePtrE mergeAPI zeroAPI d.API cur.API with
      | .error e => .error e
      | .ok ap =>
          .ok { Database := mergeDatabaseField d.Database cur.Database,
                Updater := mergePtrP mergeUpdater zeroUpdater d.Updater cur.Updater,
                Notifier := nt,
                API := ap }

/-- Merge of a whole document onto a `File` value. -/
def mergeFile (d : FileDoc) (cur : File) : Except String File :=
  match d.Clair with
  | .absent => .ok cur
  | .null => .ok { Clair := zeroConfig }
  | .val c =>
      match mergeConfig c cur.Clair with
      | .ok m => .ok { Clair := m }
      | .error e => .error e

/-! ### The fernet key model

Modelled from the spec: `fernet-go` is outside this repository.  The spec
describes `fernet.DecodeKey` as decoding the supplied key as URL-safe base64
of the expected (32) byte length, and `Key.Generate`/`Key.Encode` as producing
a random 32-byte key and encoding it in URL-safe base64. -/

/-- A 32-byte fernet key (Go `fernet.Key` is `[32]byte`). -/
def Key32 : Type := { bs : List Nat // bs.length = 32 ∧ ∀ b ∈ bs, b < 256 }

/-- Modelled from the spec: `fernet.DecodeKey` accepts exactly the URL-safe
base64 encodings of 32-byte strings. -/
def fernetDecodeKey (s : String) : Option (List Nat) :=
  match base64UrlDecode s with
  | some bs => if bs.length = 32 then some bs else none
  | none => none

/-- Modelled from the spec: `fernet.Key.Encode` is URL-safe base64 encoding
of the 32 key bytes. -/
def fernetKeyEncode (k : Key32) : String := base64UrlEncode k.val

/-! ### The loader -/

/-- File bytes as delivered by `ioutil.ReadAll`, represented by their YAML
parse outcome: raw text that `yaml.Unmarshal` rejects as not well-formed is
`malformed` (carrying the parser's message), and well-formed text is carried
as its document skeleton. -/
inductive FileContent where
  | malformed (msg : String)
  | wellFormed (doc : FileDoc)
deriving DecidableEq

/-- Outcome of `os.Open` plus `ioutil.ReadAll` for one path. -/
inductive FSResult where
  | openError (msg : String)
  | readError (msg : String)
  | content (c : FileContent)
deriving DecidableEq

/-- Errors surfaced by the loader.  `datasourceNotLoaded` embeds the declared
package-level `ErrDatasourceNotLoaded` ("could not load configuration: no
database source specified"); the other constructors classify the error values
the loader builds or propagates, with their message. -/
inductive LoadError where
  | datasourceNotLoaded
  | ioError (msg : String)
  | parseError (msg : String)
  | validationError (msg : String)
  | keyGenError (msg : String)
deriving DecidableEq

/-- The pair of named results `(config *Config, err error)` of `LoadConfig`;
`config = none` is a nil pointer. -/
structure LoadResult where
  config : Option Config
  err : Option LoadError
deriving DecidableEq

/-- How a call to `LoadConfig` ends: a normal return, or a nil-pointer
dereference (a Go runtime panic) at `config.API.PaginationKey` when the
document explicitly nulled the `api` block. -/
inductive LoadOutcome where
  | ret (r : LoadResult)
  | nilDeref
deriving DecidableEq

/-- The ambient operating system: environment-variable expansion applied by
`os.ExpandEnv`, the filesystem consulted by `os.Open`/`ioutil.ReadAll`
(indexed by the expanded path), and the outcome of the one possible
`fernet.Key.Generate` call (`crypto/rand` either fails or yields 32 random
bytes). -/
structure Env where
  expandEnv : String → String
  fs : String → FSResult
  keyGen : Except String Key32

/-- Body of `LoadConfig` after the empty-path early return: consume the
open/read outcome, unmarshal onto defaults, then run the pagination-key
step. -/
def loadFromFS (fsr : FSResult) (kg : Except String Key32) : LoadOutcome :=
  match fsr with
  | .openError m => .ret { config := none, err := some (.ioError m) }
  | .readError m => .ret { config := none, err := some (.ioError m) }
  | .content (.malformed m) => .ret { config := none, err := some (.parseError m) }
  | .content (.wellFormed doc) =>
      match mergeFile doc { Clair := DefaultConfig } with
      | .error m => .ret { config := none, err := some (.parseError m) }
      | .ok merged =>
          match merged.Clair.API with
          | none => .nilDeref
          | some api =>
              if api.PaginationKey = "" then
                match kg with
                | .error m =>
                    .ret { config := some merged.Clair, err := some (.keyGenError m) }
                | .ok key =>
                    .ret { config := some { merged.Clair with
                             API := some { api with
                               PaginationKey := fernetKeyEncode key } },
                           err := none }
              else
                match fernetDecodeKey api.PaginationKey with
                | some _ => .ret { config := some merged.Clair, err := none }
                | none =>
                    .ret { config := some merged.Clair,
                           err := some (.validationError
                             "invalid Pagination key; must be 32-bit URL-safe base64") }

/-- LoadConfig is a shortcut to open a file, read it, and generate a Config.
Given the empty path it returns `DefaultConfig` with no error and touches
nothing in the environment. -/
def LoadConfig (env : Env) (path : String) : LoadOutcome :=
  if path = "" then .ret { config := some DefaultConfig, err := none }
  else loadFromFS (env.fs (env.expandEnv path)) env.keyGen

/-! ### Helper lemmas -/

theorem fernetDecodeKey_fernetKeyEncode (k : Key32) :
    fernetDecodeKey (fernetKeyEncode k) = some k.val := by
  unfold fernetDecodeKey fernetKeyEncode
  rw [base64UrlDecode_base64UrlEncode k.val k.prop.2]
  simp [k.prop.1]

theorem fernetDecodeKey_length {s : String} {bs : List Nat}
    (h : fernetDecodeKey s = some bs) : bs.length = 32 := by
  unfold fernetDecodeKey at h
  split at h
  · split at h
    · cases h; assumption
    · cases h
  · cases h

/-- Exhaustive characterisation of the ways `loadFromFS` can return. -/
theorem loadFromFS_ret_cases (fsr : FSResult) (kg : Except String Key32)
    (r : LoadResult) (h : loadFromFS fsr kg = .ret r) :
    (∃ m, fsr = .openError m ∧ r = ⟨none, some (.ioError m)⟩) ∨
    (∃ m, fsr = .readError m ∧ r = ⟨none, some (.ioError m)⟩) ∨
    (∃ m, fsr = .content (.malformed m) ∧ r = ⟨none, some (.parseError m)⟩) ∨
    (∃ doc m, fsr = .content (.wellFormed doc) ∧
       mergeFile doc { Clair := DefaultConfig } = .error m ∧
       r = ⟨none, some (.parseError m)⟩) ∨
    (∃ doc f api, fsr = .content (.wellFormed doc) ∧
       mergeFile doc { Clair := DefaultConfig } = .ok f ∧ f.Clair.API = some api ∧
       ((api.PaginationKey = "" ∧ ∃ m, kg = .error m ∧
           r = ⟨some f.Clair, some (.keyGenError m)⟩) ∨
        (api.PaginationKey = "" ∧ ∃ k, kg = .ok k ∧
           r = ⟨some { f.Clair with API := some { api with
                  PaginationKey := fernetKeyEncode k } }, none⟩) ∨
        (api.PaginationKey ≠ "" ∧ (∃ bs, fernetDecodeKey api.PaginationKey = some bs) ∧
           r = ⟨some f.Clair, none⟩) ∨
        (api.PaginationKey ≠ "" ∧ fernetDecodeKey api.PaginationKey = none ∧
           r = ⟨some f.Clair, some (.validationError
                  "invalid Pagination key; must be 32-bit URL-safe base64")⟩))) := by
  cases fsr with
  | openError m =>
      cases h
      exact Or.inl ⟨m, rfl, rfl⟩
  | readError m =>
      cases h
      exact Or.inr (Or.inl ⟨m, rfl, rfl⟩)
  | content c =>
      cases c with
      | malformed m =>
          cases h
          exact Or.inr (Or.inr (Or.inl ⟨m, rfl, rfl⟩))
      | wellFormed doc =>
          simp only [loadFromFS] at h
          split at h
          · rename_i m hm
            cases h
            exact Or.inr (Or.inr (Or.inr (Or.inl ⟨doc, m, rfl, hm, rfl⟩)))
          · rename_i f hm
            split at h
            · cases h
            · rename_i api hapi
              refine Or.inr (Or.inr (Or.inr (Or.inr ⟨doc, f, api, rfl, hm, hapi, ?_⟩)))
              split at h
              · rename_i hkey
                split at h
                · rename_i m
                  cases h
                  exact Or.inl ⟨hkey, m, rfl, rfl⟩
                · rename_i k
                  cases h
                  exact Or.inr (Or.inl ⟨hkey, k, rfl, rfl⟩)
              · rename_i hkey
                split at h
                · rename_i bs hdec
                  cases h
                  exact Or.inr (Or.inr (Or.inl ⟨hkey, ⟨bs, hdec⟩, rfl⟩))
                · rename_i hdec
                  cases h
                  exact Or.inr (Or.inr (Or.inr ⟨hkey, hdec, rfl⟩))

/-- Whether the document explicitly nulls the `updater` block, directly or by
nulling the whole `clair` mapping. -/
def docNullsUpdater (d : FileDoc) : Bool :=
  match d.Clair with
  | .absent => false
  | .null => true
  | .val c =>
      match c.Updater with
      | .null => true
      | _ => false

/-- Whether the document explicitly nulls the `notifier` block, directly or by
nulling the whole `clair` mapping. -/
def docNullsNotifier (d : FileDoc) : Bool :=
  match d.Clair with
  | .absent => false
  | .null => true
  | .val c =>
      match c.Notifier with
      | .null => true
      | _ => false

/-- Whether the document explicitly nulls the `api` block, directly or by
nulling the whole `clair` mapping. -/
def docNullsAPI (d : FileDoc) : Bool :=
  match d.Clair with
  | .absent => false
  | .null => true
  | .val c =>
      match c.API with
      | .null => true
      | _ => false

/-- A merged config has a nil `Updater` or `Notifier` only when the document
explicitly nulled it. -/
theorem mergeFile_none_fields (doc : FileDoc) (f : File)
    (h : mergeFile doc { Clair := DefaultConfig } = .ok f) :
    (f.Clair.Updater = none → docNullsUpdater doc = true) ∧
    (f.Clair.Notifier = none → docNullsNotifier doc = true) := by
  unfold mergeFile at h
  split at h
  · rename_i heq
    cases h
    constructor
    · intro hu; simp [DefaultConfig] at hu
    · intro hn; simp [DefaultConfig] at hn
  · rename_i heq
    cases h
    constructor
    · intro _; simp [docNullsUpdater, heq]
    · intro _; simp [docNullsNotifier, heq]
  · rename_i c heq
    split at h
    · rename_i m hcm
      cases h
      unfold mergeConfig at hcm
      split at hcm
      · cases hcm
      · rename_i nt hnt
        split at hcm
        · cases hcm
        · rename_i ap hap
          cases hcm
          constructor
          · intro hu
            simp only at hu
            unfold mergePtrP at hu
            split at hu
            · rename_i hcu; simp [DefaultConfig] at hu
            · rename_i hcu; simp [docNullsUpdater, heq, hcu]
            · rename_i u hcu; simp at hu
          · intro hn
            simp only at hn
            subst hn
            unfold mergePtrE at hnt
            split at hnt
            · rename_i hcn; rw [show DefaultConfig.Notifier =
                some { Attempts := 5, RenotifyInterval := 2 * timeHour } from rfl] at hnt
              cases hnt
            · rename_i hcn; simp [docNullsNotifier, heq, hcn]
            · rename_i d hcn
              split at hnt
              · rename_i a hma; cases hnt
              · cases hnt
    · cases h

/-! ### Concrete material for witnesses and counterexamples -/

/-- A fixed 32-byte key standing for one draw of `fernet.Key.Generate`. -/
def sampleKey : Key32 := ⟨List.replicate 32 65, by decide⟩

/-- An `api` block with every field absent. -/
def apiDocAbsent : APIDoc :=
  { Port := .absent, HealthPort := .absent, Timeout := .absent,
    PaginationKey := .absent, CertFile := .absent, KeyFile := .absent,
    CAFile := .absent }

/-- A `clair` mapping with every block absent. -/
def configDocAbsent : ConfigDoc :=
  { Database := .absent, Updater := .absent, Notifier := .absent, API := .absent }

/-- A document without the `clair` key (for example an empty YAML file). -/
def emptyFileDoc : FileDoc := { Clair := .absent }

/-- A document that overrides only `api.port`. -/
def docPortOnly (p : Int) : FileDoc :=
  { Clair := .val { configDocAbsent with API := .val { apiDocAbsent with Port := .val p } } }

/-- A document whose `api.paginationkey` is the claim's example of an invalid
key. -/
def docBadKey : FileDoc :=
  { Clair := .val { configDocAbsent with
      API := .val { apiDocAbsent with PaginationKey := .val "not-valid-base64!!" } } }

/-- A document that overrides only `api.timeout`, with a duration-string. -/
def docTimeoutOnly (s : String) : FileDoc :=
  { Clair := .val { configDocAbsent with
      API := .val { apiDocAbsent with Timeout := .val s } } }

/-- A document whose `database` block explicitly sets an empty source type. -/
def docDbEmpty : FileDoc :=
  { Clair := .val { configDocAbsent with
      Database := .val { «Type» := .val "", Options := .absent } } }

/-- An environment with identity variable expansion, every path mapped to the
given open/read outcome, and the given key-generator outcome. -/
def mkEnv (fsr : FSResult) (kg : Except String Key32) : Env :=
  { expandEnv := id, fs := fun _ => fsr, keyGen := kg }

/-- The default configuration with `API.Port` set to `p` and
`API.PaginationKey` set to `key`. -/
def defaultWithPortKey (p : Int) (key : String) : Config :=
  { DefaultConfig with
      API := some { Port := p, HealthPort := 6061, Timeout := 900 * timeSecond,
                    PaginationKey := key, CertFile := "", KeyFile := "",
                    CAFile := "" } }

/-! ### Claims -/

/-- C2: for the empty-string path, `LoadConfig` returns a config equal
field-for-field to `DefaultConfig` together with a nil error.  The statement
is universally quantified over the whole environment (filesystem, variable
expansion, key generator), so the result is independent of all of them: no
filesystem access or any other interaction with the environment takes
place. -/
theorem c2_empty_path_returns_defaults (env : Env) :
    LoadConfig env "" = .ret { config := some DefaultConfig, err := none } := rfl

/-- C6: `DefaultConfig` is a closed constant of the embedding (a function of
no inputs), so two calls are deep-equal by construction (first conjunct), and
its value is the fixed baseline: store type `"pgsql"`, updater cron
`"@midnight"` with the updater enabled (`Disabled = false`), API port 6060,
health port 6061, timeout 900 seconds, notifier attempts 5, re-notify
interval 2 hours, and the pagination key left empty. -/
theorem c6_defaultConfig_is_fixed_baseline :
    DefaultConfig = DefaultConfig ∧
    DefaultConfig.Database.«Type» = "pgsql" ∧
    DefaultConfig.Updater = some { Cron := "@midnight", Disabled := false } ∧
    DefaultConfig.API =
      some { Port := 6060, HealthPort := 6061, Timeout := 900 * timeSecond,
             PaginationKey := "", CertFile := "", KeyFile := "", CAFile := "" } ∧
    DefaultConfig.Notifier = some { Attempts := 5, RenotifyInterval := 2 * timeHour } :=
  ⟨rfl, rfl, rfl, rfl, rfl⟩

/-- C7: no execution path of `LoadConfig` returns the declared
`ErrDatasourceNotLoaded` error (first conjunct, over every environment and
path), and the loader never checks for an empty database source before
returning success: a document that explicitly sets an empty database source
type still loads with no error (second conjunct). -/
theorem c7_datasource_error_never_raised :
    (∀ (env : Env) (path : String) (r : LoadResult),
       LoadConfig env path = .ret r → r.err ≠ some .datasourceNotLoaded) ∧
    (∀ k : Key32, ∃ r : LoadResult,
       loadFromFS (.content (.wellFormed docDbEmpty)) (.ok k) = .ret r ∧
       r.err = none ∧ ∃ cfg, r.config = some cfg ∧ cfg.Database.«Type» = "") := by
  constructor
  · intro env path r h
    unfold LoadConfig at h
    split at h
    · cases h; simp
    · rcases loadFromFS_ret_cases _ _ _ h with ⟨m, _, rfl⟩ | ⟨m, _, rfl⟩ | ⟨m, _, rfl⟩ |
        ⟨doc, m, _, _, rfl⟩ | ⟨doc, f, api, _, _, _,
          (⟨_, m, _, rfl⟩ | ⟨_, k, _, rfl⟩ | ⟨_, _, rfl⟩ | ⟨_, _, rfl⟩)⟩ <;> simp
  · intro k
    exact ⟨_, rfl, rfl, _, rfl, rfl⟩

/-- C7 witness: the first conjunct of the theorem applied to a concrete
failing run (a missing file). -/
theorem c7_witness :
    (LoadResult.mk none (some (.ioError "no such file"))).err ≠
      some .datasourceNotLoaded :=
  c7_datasource_error_never_raised.1 (mkEnv (.openError "no such file") (.error "rng"))
    "config.yaml" ⟨none, some (.ioError "no such file")⟩ (by decide)

/-- C8: for a non-empty path, an open or read failure is surfaced as that
very `IOError`, malformed YAML as that very `ParseError`, and a well-formed
document that does not fit the expected shape (here: a duration field that
does not parse, the one shape error the skeleton can express) also as a
`ParseError`; each is the immediate result of the call, with no retry. -/
theorem c8_error_classification (env : Env) (path m : String) (hp : path ≠ "") :
    (env.fs (env.expandEnv path) = .openError m →
       LoadConfig env path = .ret { config := none, err := some (.ioError m) }) ∧
    (env.fs (env.expandEnv path) = .readError m →
       LoadConfig env path = .ret { config := none, err := some (.ioError m) }) ∧
    (env.fs (env.expandEnv path) = .content (.malformed m) →
       LoadConfig env path = .ret { config := none, err := some (.parseError m) }) ∧
    (∀ d, env.fs (env.expandEnv path) = .content (.wellFormed d) →
       mergeFile d { Clair := DefaultConfig } = .error m →
       LoadConfig env path = .ret { config := none, err := some (.parseError m) }) := by
  refine ⟨fun heq => ?_, fun heq => ?_, fun heq => ?_, fun d heq hm => ?_⟩ <;>
    unfold LoadConfig <;> rw [if_neg hp, heq]
  · rfl
  · rfl
  · rfl
  · simp only [loadFromFS, hm]

/-- C8 witness: the theorem applied to a concrete missing-file run. -/
theorem c8_witness :
    LoadConfig (mkEnv (.openError "open config.yaml: no such file or directory")
        (.error "rng")) "config.yaml" =
      .ret { config := none,
             err := some (.ioError "open config.yaml: no such file or directory") } :=
  (c8_error_classification (mkEnv (.openError "open config.yaml: no such file or directory")
      (.error "rng")) "config.yaml" "open config.yaml: no such file or directory"
      (by decide)).1 rfl

/-- C10: whenever `LoadConfig` returns, a pagination-step failure (key
validation or key generation) comes with a non-nil config pointer, while an
earlier failure (file open or read, YAML parse) comes with a nil config
pointer. -/
theorem c10_config_pointer_by_error_class (env : Env) (path : String)
    (r : LoadResult) (h : LoadConfig env path = .ret r) :
    (∀ m, r.err = some (.ioError m) → r.config = none) ∧
    (∀ m, r.err = some (.parseError m) → r.config = none) ∧
    (∀ m, r.err = some (.validationError m) → ∃ cfg, r.config = some cfg) ∧
    (∀ m, r.err = some (.keyGenError m) → ∃ cfg, r.config = some cfg) := by
  unfold LoadConfig at h
  split at h
  · cases h
    refine ⟨?_, ?_, ?_, ?_⟩ <;> intro m' hm <;> cases hm
  · rcases loadFromFS_ret_cases _ _ _ h with ⟨m, _, rfl⟩ | ⟨m, _, rfl⟩ | ⟨m, _, rfl⟩ |
      ⟨doc, m, _, _, rfl⟩ | ⟨doc, f, api, _, _, _,
        (⟨_, m, _, rfl⟩ | ⟨_, k, _, rfl⟩ | ⟨_, _, rfl⟩ | ⟨_, _, rfl⟩)⟩ <;>
      refine ⟨?_, ?_, ?_, ?_⟩ <;> intro m' hm <;>
      first
        | rfl
        | exact ⟨_, rfl⟩
        | cases hm

/-- C10 witness: the theorem applied to a concrete run whose pagination key
is invalid, extracting the non-nil config pointer. -/
theorem c10_witness :
    ∃ cfg, (LoadResult.mk (some (defaultWithPortKey 6060 "not-valid-base64!!"))
      (some (.validationError "invalid Pagination key; must be 32-bit URL-safe base64"))).config =
        some cfg :=
  (c10_config_pointer_by_error_class
      (mkEnv (.content (.wellFormed docBadKey)) (.ok sampleKey)) "config.yaml"
      ⟨some (defaultWithPortKey 6060 "not-valid-base64!!"),
       some (.validationError "invalid Pagination key; must be 32-bit URL-safe base64")⟩
      (by decide)).2.2.1
    "invalid Pagination key; must be 32-bit URL-safe base64" rfl

/-- C1 counterexample: the claim quantifies over every call of `LoadConfig`
that returns with no error, but the empty-path call returns `DefaultConfig`
with no error, and its pagination key is the empty string, which is not the
URL-safe base64 encoding of a 32-byte key. -/
theorem c1_counterexample :
    LoadConfig (mkEnv (.openError "unused") (.error "unused")) "" =
      .ret { config := some DefaultConfig, err := none } ∧
    DefaultConfig.API.map APIConfig.PaginationKey = some "" ∧
    fernetDecodeKey "" = none :=
  ⟨rfl, rfl, rfl⟩

/-- C1 (amended): for every call of `LoadConfig` with a non-empty path that
returns with no error, the returned config has a non-nil `API` whose
`PaginationKey` is valid URL-safe base64 of a 32-byte key, and that key is
either freshly generated (the encoding of the key drawn from the generator)
or the user-supplied key of the parsed document, which was non-empty and
decoded successfully.  Only the restriction to non-empty paths was added to
the claim. -/
theorem c1_amended_pagination_key_valid (env : Env) (path : String)
    (r : LoadResult) (cfg : Config) (hp : path ≠ "")
    (h : LoadConfig env path = .ret r) (he : r.err = none)
    (hc : r.config = some cfg) :
    ∃ a, cfg.API = some a ∧
      (∃ bs, fernetDecodeKey a.PaginationKey = some bs ∧ bs.length = 32) ∧
      ((∃ k, env.keyGen = .ok k ∧ a.PaginationKey = fernetKeyEncode k) ∨
       (∃ doc f a0, env.fs (env.expandEnv path) = .content (.wellFormed doc) ∧
          mergeFile doc { Clair := DefaultConfig } = .ok f ∧
          f.Clair.API = some a0 ∧ a0.PaginationKey ≠ "" ∧
          a.PaginationKey = a0.PaginationKey)) := by
  unfold LoadConfig at h
  rw [if_neg hp] at h
  rcases loadFromFS_ret_cases _ _ _ h with ⟨m, _, rfl⟩ | ⟨m, _, rfl⟩ | ⟨m, _, rfl⟩ |
      ⟨doc, m, _, _, rfl⟩ | ⟨doc, f, api, hfs, hm, hapi,
        (⟨_, m, _, rfl⟩ | ⟨hkey, k, hkg, rfl⟩ | ⟨hkey, ⟨bs, hdec⟩, rfl⟩ | ⟨_, _, rfl⟩)⟩
  · cases he
  · cases he
  · cases he
  · cases he
  · cases he
  · cases hc
    exact ⟨_, rfl, ⟨k.val, fernetDecodeKey_fernetKeyEncode k, k.prop.1⟩,
           Or.inl ⟨k, hkg, rfl⟩⟩
  · cases hc
    exact ⟨api, hapi, ⟨bs, hdec, fernetDecodeKey_length hdec⟩,
           Or.inr ⟨doc, f, api, hfs, hm, hapi, hkey, rfl⟩⟩
  · cases he

/-- C1 witness: the amended theorem applied to a concrete successful run on an
empty document, whose key is freshly generated. -/
theorem c1_amended_witness :
    ∃ a, (defaultWithPortKey 6060 (fernetKeyEncode sampleKey)).API = some a ∧
      (∃ bs, fernetDecodeKey a.PaginationKey = some bs ∧ bs.length = 32) ∧
      ((∃ k, (mkEnv (.content (.wellFormed emptyFileDoc)) (.ok sampleKey)).keyGen = .ok k ∧
          a.PaginationKey = fernetKeyEncode k) ∨
       (∃ doc f a0,
          (mkEnv (.content (.wellFormed emptyFileDoc)) (.ok sampleKey)).fs
              ((mkEnv (.content (.wellFormed emptyFileDoc)) (.ok sampleKey)).expandEnv
                "config.yaml") = .content (.wellFormed doc) ∧
          mergeFile doc { Clair := DefaultConfig } = .ok f ∧
          f.Clair.API = some a0 ∧ a0.PaginationKey ≠ "" ∧
          a.PaginationKey = a0.PaginationKey)) :=
  c1_amended_pagination_key_valid
    (mkEnv (.content (.wellFormed emptyFileDoc)) (.ok sampleKey)) "config.yaml"
    ⟨some (defaultWithPortKey 6060 (fernetKeyEncode sampleKey)), none⟩
    (defaultWithPortKey 6060 (fernetKeyEncode sampleKey))
    (by decide) (by decide) rfl rfl

/-- C3 counterexample: for the document that overrides only `api.port`, the
returned config does not have every other field equal to the default: its
pagination key has been freshly generated, where the default is the empty
string. -/
theorem c3_counterexample :
    LoadConfig (mkEnv (.content (.wellFormed (docPortOnly 7070))) (.ok sampleKey))
        "config.yaml" =
      .ret { config := some (defaultWithPortKey 7070 (fernetKeyEncode sampleKey)),
             err := none } ∧
    defaultWithPortKey 7070 (fernetKeyEncode sampleKey) ≠ defaultWithPortKey 7070 "" :=
  ⟨by decide, by decide⟩

/-- C3 (amended): for a well-formed document overriding only `api.port`, the
loaded config has the overridden port and every other field equal to the
default except `API.PaginationKey`, which is freshly generated because the
document leaves it empty (first conjunct).  More generally, absent nested
blocks keep the full default (second conjunct), and partially-specified
nested blocks replace only the fields they specify (third conjunct, for the
`updater` block). -/
theorem c3_amended_overlay :
    (∀ (p : Int) (k : Key32) (env : Env) (path : String), path ≠ "" →
       env.fs (env.expandEnv path) = .content (.wellFormed (docPortOnly p)) →
       env.keyGen = .ok k →
       LoadConfig env path =
         .ret { config := some (defaultWithPortKey p (fernetKeyEncode k)),
                err := none }) ∧
    (∀ (c : ConfigDoc) (cur m : Config), mergeConfig c cur = .ok m →
       (c.Updater = .absent → m.Updater = cur.Updater) ∧
       (c.Notifier = .absent → m.Notifier = cur.Notifier) ∧
       (c.API = .absent → m.API = cur.API) ∧
       (c.Database = .absent → m.Database = cur.Database)) ∧
    (∀ (u : UpdaterDoc) (cur : UpdaterConfig) (s : String),
       u.Cron = .val s → u.Disabled = .absent →
       mergeUpdater u cur = { Cron := s, Disabled := cur.Disabled }) := by
  refine ⟨?_, ?_, ?_⟩
  · intro p k env path hp hfs hkg
    unfold LoadConfig
    rw [if_neg hp, hfs, hkg]
    rfl
  · intro c cur m hm
    unfold mergeConfig at hm
    split at hm
    · cases hm
    · rename_i nt hnt
      split at hm
      · cases hm
      · rename_i ap hap
        cases hm
        refine ⟨?_, ?_, ?_, ?_⟩
        · intro hu
          simp only [mergePtrP, hu]
        · intro hn
          rw [hn] at hnt
          unfold mergePtrE at hnt
          cases hnt
          rfl
        · intro ha
          rw [ha] at hap
          unfold mergePtrE at hap
          cases hap
          rfl
        · intro hd
          simp only [mergeDatabaseField, hd]
  · intro u cur s hc hd
    unfold mergeUpdater
    rw [hc, hd]
    rfl

/-- C3 witness: the first conjunct of the amended theorem applied to a
concrete run overriding `api.port` with 7070. -/
theorem c3_amended_witness :
    LoadConfig (mkEnv (.content (.wellFormed (docPortOnly 7070))) (.ok sampleKey))
        "cfg.yaml" =
      .ret { config := some (defaultWithPortKey 7070 (fernetKeyEncode sampleKey)),
             err := none } :=
  c3_amended_overlay.1 7070 sampleKey
    (mkEnv (.content (.wellFormed (docPortOnly 7070))) (.ok sampleKey))
    "cfg.yaml" (by decide) rfl rfl

/-- C4 counterexample: on the claim's own example input
(`api.paginationkey: "not-valid-base64!!"`) the loader does return a
validation error, but its message is the source's
"invalid Pagination key; must be 32-bit URL-safe base64", not the claimed
"invalid pagination key; must be 32-byte URL-safe base64". -/
theorem c4_counterexample :
    LoadConfig (mkEnv (.content (.wellFormed docBadKey)) (.ok sampleKey))
        "config.yaml" =
      .ret { config := some (defaultWithPortKey 6060 "not-valid-base64!!"),
             err := some (.validationError
               "invalid Pagination key; must be 32-bit URL-safe base64") } ∧
    "invalid Pagination key; must be 32-bit URL-safe base64" ≠
      "invalid pagination key; must be 32-byte URL-safe base64" :=
  ⟨by decide, by decide⟩

/-- C4 (amended): for every input document whose `api.paginationkey` is
present and non-empty but does not decode as URL-safe base64 of 32 bytes,
`LoadConfig` returns a `ValidationError` whose message is
"invalid Pagination key; must be 32-bit URL-safe base64" (the exact string
built by the source), and loading is aborted with that result.  Only the
message text was changed from the claim. -/
theorem c4_amended_validation_error (env : Env) (path : String) (d : FileDoc)
    (f : File) (a : APIConfig) (hp : path ≠ "")
    (hfs : env.fs (env.expandEnv path) = .content (.wellFormed d))
    (hm : mergeFile d { Clair := DefaultConfig } = .ok f)
    (hapi : f.Clair.API = some a) (hne : a.PaginationKey ≠ "")
    (hdec : fernetDecodeKey a.PaginationKey = none) :
    LoadConfig env path =
      .ret { config := some f.Clair,
             err := some (.validationError
               "invalid Pagination key; must be 32-bit URL-safe base64") } := by
  unfold LoadConfig
  rw [if_neg hp, hfs]
  simp only [loadFromFS, hm, hapi, hdec, if_neg hne]

/-- C4 witness: the amended theorem applied to the concrete
"not-valid-base64!!" document. -/
theorem c4_amended_witness :
    LoadConfig (mkEnv (.content (.wellFormed docBadKey)) (.error "rng"))
        "config.yaml" =
      .ret { config := some (defaultWithPortKey 6060 "not-valid-base64!!"),
             err := some (.validationError
               "invalid Pagination key; must be 32-bit URL-safe base64") } :=
  c4_amended_validation_error
    (mkEnv (.content (.wellFormed docBadKey)) (.error "rng")) "config.yaml"
    docBadKey { Clair := defaultWithPortKey 6060 "not-valid-base64!!" }
    { Port := 6060, HealthPort := 6061, Timeout := 900 * timeSecond,
      PaginationKey := "not-valid-base64!!", CertFile := "", KeyFile := "",
      CAFile := "" }
    (by decide) rfl rfl (by decide) (by decide) (by decide)

/-- C5: whenever `LoadConfig` completes loading (returns with no error and a
config), a nil `Updater`, `Notifier` or `API` can only come from a document
that explicitly nulled the corresponding substructure (directly, or by
nulling the whole `clair` mapping); with no such explicit override the
defaults guarantee the three fields are set. -/
theorem c5_substructures_never_unset (env : Env) (path : String)
    (r : LoadResult) (cfg : Config) (h : LoadConfig env path = .ret r)
    (he : r.err = none) (hc : r.config = some cfg) :
    (cfg.Updater = none → ∃ d, env.fs (env.expandEnv path) = .content (.wellFormed d) ∧
       docNullsUpdater d = true) ∧
    (cfg.Notifier = none → ∃ d, env.fs (env.expandEnv path) = .content (.wellFormed d) ∧
       docNullsNotifier d = true) ∧
    (cfg.API = none → ∃ d, env.fs (env.expandEnv path) = .content (.wellFormed d) ∧
       docNullsAPI d = true) := by
  unfold LoadConfig at h
  split at h
  · cases h
    cases hc
    refine ⟨fun hu => absurd hu ?_, fun hn => absurd hn ?_, fun ha => absurd ha ?_⟩ <;>
      simp [DefaultConfig]
  · rcases loadFromFS_ret_cases _ _ _ h with ⟨m, _, rfl⟩ | ⟨m, _, rfl⟩ | ⟨m, _, rfl⟩ |
      ⟨doc, m, _, _, rfl⟩ | ⟨doc, f, api, hfs, hm, hapi,
        (⟨_, m, _, rfl⟩ | ⟨hkey, k, hkg, rfl⟩ | ⟨hkey, ⟨bs, hdec⟩, rfl⟩ | ⟨_, _, rfl⟩)⟩
    · cases he
    · cases he
    · cases he
    · cases he
    · cases he
    · cases hc
      refine ⟨fun hu => ?_, fun hn => ?_, fun ha => ?_⟩
      · exact ⟨doc, hfs, (mergeFile_none_fields doc f hm).1 hu⟩
      · exact ⟨doc, hfs, (mergeFile_none_fields doc f hm).2 hn⟩
      · cases ha
    · cases hc
      refine ⟨fun hu => ?_, fun hn => ?_, fun ha => ?_⟩
      · exact ⟨doc, hfs, (mergeFile_none_fields doc f hm).1 hu⟩
      · exact ⟨doc, hfs, (mergeFile_none_fields doc f hm).2 hn⟩
      · rw [ha] at hapi
        cases hapi
    · cases he

/-- C5 witness: the theorem applied to the concrete empty-path run. -/
theorem c5_witness :
    (DefaultConfig.Updater = none →
       ∃ d, (mkEnv (.openError "unused") (.error "unused")).fs
           ((mkEnv (.openError "unused") (.error "unused")).expandEnv "") =
             .content (.wellFormed d) ∧ docNullsUpdater d = true) ∧
    (DefaultConfig.Notifier = none →
       ∃ d, (mkEnv (.openError "unused") (.error "unused")).fs
           ((mkEnv (.openError "unused") (.error "unused")).expandEnv "") =
             .content (.wellFormed d) ∧ docNullsNotifier d = true) ∧
    (DefaultConfig.API = none →
       ∃ d, (mkEnv (.openError "unused") (.error "unused")).fs
           ((mkEnv (.openError "unused") (.error "unused")).expandEnv "") =
             .content (.wellFormed d) ∧ docNullsAPI d = true) :=
  c5_substructures_never_unset (mkEnv (.openError "unused") (.error "unused")) ""
    ⟨some DefaultConfig, none⟩ DefaultConfig rfl rfl rfl

/-- Structure eta for `Config` at the `API` field. -/
theorem config_eta_api (cfg : Config) (a : APIConfig) (h : cfg.API = some a) :
    cfg = { cfg with API := some a } := by
  cases cfg
  cases h
  rfl

/-- A successful merge of a document whose `api` block gives `timeout` as a
parsable duration-string yields an API block whose `Timeout` is that
duration. -/
theorem mergeFile_api_timeout (fd : FileDoc) (c : ConfigDoc) (a : APIDoc)
    (s : String) (dur : Int) (f : File)
    (hclair : fd.Clair = .val c) (hapi : c.API = .val a)
    (ht : a.Timeout = .val s) (hd : parseGoDuration s = some dur)
    (hm : mergeFile fd { Clair := DefaultConfig } = .ok f) :
    ∃ apiM, f.Clair.API = some apiM ∧ apiM.Timeout = dur := by
  unfold mergeFile at hm
  simp only [hclair] at hm
  split at hm
  · rename_i mC hcm
    cases hm
    unfold mergeConfig at hcm
    split at hcm
    · cases hcm
    · rename_i nt hnt
      split at hcm
      · cases hcm
      · rename_i ap hap
        cases hcm
        unfold mergePtrE at hap
        simp only [hapi] at hap
        unfold mergeAPI mergeDuration at hap
        simp only [ht, hd] at hap
        cases hap
        exact ⟨_, rfl, rfl⟩
  · cases hm

/-- C9: for every well-formed document (one that opens, reads and merges
successfully) whose `api` block gives `timeout` as a duration-string,
`LoadConfig` parses the document successfully — the call returns, and its
error, if any, is from the later pagination-key step, never an `IOError` or
`ParseError` — and the returned config's `API.Timeout` is exactly the
duration the string denotes. -/
theorem c9_timeout_duration_string (env : Env) (path : String) (fd : FileDoc)
    (c : ConfigDoc) (a : APIDoc) (s : String) (dur : Int) (f : File)
    (hp : path ≠ "")
    (hfs : env.fs (env.expandEnv path) = .content (.wellFormed fd))
    (hclair : fd.Clair = .val c) (hapi : c.API = .val a)
    (ht : a.Timeout = .val s) (hd : parseGoDuration s = some dur)
    (hm : mergeFile fd { Clair := DefaultConfig } = .ok f) :
    ∃ (r : LoadResult) (api : APIConfig),
      LoadConfig env path = .ret r ∧
      r.config = some { f.Clair with API := some api } ∧
      api.Timeout = dur ∧
      (∀ m, r.err ≠ some (.ioError m)) ∧ (∀ m, r.err ≠ some (.parseError m)) := by
  obtain ⟨apiM, hA, hT⟩ := mergeFile_api_timeout fd c a s dur f hclair hapi ht hd hm
  have hbase : LoadConfig env path = loadFromFS (.content (.wellFormed fd)) env.keyGen := by
    unfold LoadConfig
    rw [if_neg hp, hfs]
  by_cases hkey : apiM.PaginationKey = ""
  · cases hkg : env.keyGen with
    | error m =>
        refine ⟨⟨some f.Clair, some (.keyGenError m)⟩, apiM, ?_, ?_, hT, ?_, ?_⟩
        · rw [hbase]
          simp only [loadFromFS, hm, hA, if_pos hkey, hkg]
        · rw [← config_eta_api f.Clair apiM hA]
        · intro m' h'; cases h'
        · intro m' h'; cases h'
    | ok k =>
        refine ⟨⟨some { f.Clair with API := some { apiM with
                  PaginationKey := fernetKeyEncode k } }, none⟩,
                { apiM with PaginationKey := fernetKeyEncode k }, ?_, rfl, hT, ?_, ?_⟩
        · rw [hbase]
          simp only [loadFromFS, hm, hA, if_pos hkey, hkg]
        · intro m' h'; cases h'
        · intro m' h'; cases h'
  · cases hdec : fernetDecodeKey apiM.PaginationKey with
    | some bs =>
        refine ⟨⟨some f.Clair, none⟩, apiM, ?_, ?_, hT, ?_, ?_⟩
        · rw [hbase]
          simp only [loadFromFS, hm, hA, if_neg hkey, hdec]
        · rw [← config_eta_api f.Clair apiM hA]
        · intro m' h'; cases h'
        · intro m' h'; cases h'
    | none =>
        refine ⟨⟨some f.Clair, some (.validationError
                  "invalid Pagination key; must be 32-bit URL-safe base64")⟩, apiM,
                ?_, ?_, hT, ?_, ?_⟩
        · rw [hbase]
          simp only [loadFromFS, hm, hA, if_neg hkey, hdec]
        · rw [← config_eta_api f.Clair apiM hA]
        · intro m' h'; cases h'
        · intro m' h'; cases h'

/-- C9 witness: the theorem applied to a concrete document with
`api.timeout: "900s"`, yielding 900 seconds in nanoseconds. -/
theorem c9_witness :
    ∃ (r : LoadResult) (api : APIConfig),
      LoadConfig (mkEnv (.content (.wellFormed (docTimeoutOnly "900s"))) (.ok sampleKey))
          "config.yaml" = .ret r ∧
      r.config = some { ({ Clair := defaultWithPortKey 6060 "" } : File).Clair with
        API := some api } ∧
      api.Timeout = 900000000000 ∧
      (∀ m, r.err ≠ some (.ioError m)) ∧ (∀ m, r.err ≠ some (.parseError m)) :=
  c9_timeout_duration_string
    (mkEnv (.content (.wellFormed (docTimeoutOnly "900s"))) (.ok sampleKey))
    "config.yaml" (docTimeoutOnly "900s")
    { configDocAbsent with API := .val { apiDocAbsent with Timeout := .val "900s" } }
    { apiDocAbsent with Timeout := .val "900s" }
    "900s" 900000000000 { Clair := defaultWithPortKey 6060 "" }
    (by decide) rfl rfl rfl rfl (by decide) rfl

end ClairConfig
